import Mathlib

/-!
# Go-CRUD book service: handlers over a document store

A shallow embedding of `Go-CRUD/main.go`: the `Book` record, its JSON and BSON
struct tags, and the five HTTP handlers `getBooks`, `getBook`, `createBook`,
`updateBook`, `deleteBook`.

The handlers talk to three external collaborators, which are modelled as
follows.

* `encoding/json`: `Decode` reads one JSON value from the front of the request
  body and leaves the bytes behind it unread; it either rejects that value or
  reads it member by member into a zero-valued `Book`. An encoded response is
  a JSON value tree (`null`, object, array of objects), with `omitempty`
  dropping empty strings and zero integers, and a nil slice encoded as `null`.
* the MongoDB collection: an ordered list of documents projected onto the four
  keys the `Book` tags name (`_id`, `title`, `author`, `year`). A key can be
  a string, an ObjectId, generic binary data or null, all of which the driver
  reads into a `string` field, while the filter the handlers build matches
  string keys only. `InsertOne` rejects a duplicate `_id`, `UpdateOne` with `$set` overwrites exactly the
  keys of its operand in the first matching document and refuses to change
  `_id`, `DeleteOne` removes the first matching document; an update or delete
  that matches nothing is not an error. Every call can also fail for reasons
  of its own (`Fault.call`), and a cursor can break after delivering some of
  the documents (`Fault.cursor`).
* `time.Now().UnixNano()`: an integer handed in by the environment.

Each handler returns its HTTP response, the collection afterwards and the list
of store calls it issued.
-/

namespace GoCRUD

/-! ## Data model -/

/-- The Go struct `Book`; `Year` is a Go `int`. -/
structure Book where
  ID : String
  Title : String
  Author : String
  Year : Int
deriving DecidableEq, Repr

/-- Errors the handlers can see, each standing for the `error` value whose
message `http.Error` writes. -/
inductive Err where
  | jsonSyntax
  | jsonType
  | bsonDecode
  | noDocuments
  | duplicateKey
  | immutableId
  | emptySet
  | network
deriving DecidableEq, Repr

/-! ## encoding/json -/

/-- The members of a JSON object body that `Book` has a `json` tag for; `none`
is a member that is absent. -/
structure BookJSON where
  id : Option String
  title : Option String
  author : Option String
  year : Option Int
deriving DecidableEq, Repr

/-- A request body as `json.Decoder.Decode` reads it, from the front:
`malformed` does not begin with a complete JSON value; `mistyped rest` begins
with a complete JSON value that does not fit `Book` (an array, a member of the
wrong type) and goes on with the bytes `rest`; `object o` is one JSON object
and nothing else; `objectThen o rest` is a JSON object that goes on with the
bytes `rest`. -/
inductive ReqBody where
  | malformed
  | mistyped (rest : String)
  | object (o : BookJSON)
  | objectThen (o : BookJSON) (rest : String)
deriving DecidableEq, Repr

/-- Whether the bytes behind a JSON value are JSON white space only. -/
def isBlank (rest : String) : Bool :=
  rest.data.all Char.isWhitespace

/-- Whether the whole body is one syntactically valid JSON text. -/
def ReqBody.isJSON : ReqBody → Bool
  | .malformed => false
  | .mistyped rest => isBlank rest
  | .object _ => true
  | .objectThen _ rest => isBlank rest

/-- The call `json.NewDecoder(r.Body).Decode(&book)` on a zero-valued
`book`. It stops behind the first JSON value, so the bytes that follow an
object play no part. -/
def jsonDecode : ReqBody → Except Err Book
  | .malformed => .error .jsonSyntax
  | .mistyped _ => .error .jsonType
  | .object o =>
    .ok { ID := o.id.getD "", Title := o.title.getD "",
          Author := o.author.getD "", Year := o.year.getD 0 }
  | .objectThen o _ =>
    .ok { ID := o.id.getD "", Title := o.title.getD "",
          Author := o.author.getD "", Year := o.year.getD 0 }

/-- A JSON scalar. -/
inductive JVal where
  | str (s : String)
  | num (n : Int)
deriving DecidableEq, Repr

/-- A JSON object with scalar members, in member order. -/
abbrev JObj := List (String × JVal)

/-- The JSON values the handlers write. -/
inductive JSON where
  | null
  | obj (o : JObj)
  | arr (items : List JObj)
deriving DecidableEq, Repr

/-- A string member tagged `omitempty`. -/
def omitEmptyStr (key : String) (s : String) : JObj :=
  if s = "" then [] else [(key, .str s)]

/-- An integer member tagged `omitempty`. -/
def omitEmptyInt (key : String) (n : Int) : JObj :=
  if n = 0 then [] else [(key, .num n)]

/-- The JSON object for one `Book`, following the `json` tags. -/
def encodeBook (b : Book) : JObj :=
  omitEmptyStr "id" b.ID ++ omitEmptyStr "title" b.Title ++
    omitEmptyStr "author" b.Author ++ omitEmptyInt "year" b.Year

/-- A Go slice: `none` is the nil slice. -/
abbrev Slice (α : Type) := Option (List α)

/-- The Go builtin `append(s, x)`. -/
def Slice.append {α : Type} (s : Slice α) (x : α) : Slice α :=
  match s with
  | none => some [x]
  | some l => some (l ++ [x])

/-- The elements of a slice. -/
def Slice.elems {α : Type} (s : Slice α) : List α :=
  match s with
  | none => []
  | some l => l

/-- The JSON value for a `[]Book`: a nil slice encodes as `null`. -/
def encodeBooks (books : Slice Book) : JSON :=
  match books with
  | none => .null
  | some l => .arr (l.map encodeBook)

/-! ## BSON documents and the collection -/

/-- A BSON value: a string; an integer; an ObjectId, given as the number its
twelve bytes spell; generic binary data, given as the text its bytes spell;
null; or a value of a kind that neither the string nor the integer decoder
accepts (an embedded document, an array). Booleans and doubles, which could
only matter for `year`, are not represented. -/
inductive BVal where
  | str (s : String)
  | int (n : Int)
  | oid (n : Nat)
  | binary (text : String)
  | null
  | other (tag : Nat)
deriving DecidableEq, Repr

/-- The hex text of an ObjectId: twenty-four lower-case digits. -/
def oidHex (n : Nat) : String :=
  String.mk ((List.range 24).map (fun k => Nat.digitChar (n / 16 ^ (23 - k) % 16)))

/-- A stored document, projected onto the keys of the `bson` tags. -/
structure Doc where
  _id : BVal
  title : Option BVal
  author : Option BVal
  year : Option BVal
deriving DecidableEq, Repr

/-- A marshalled `Book`: every key is tagged `omitempty`. -/
structure BDoc where
  _id : Option BVal
  title : Option BVal
  author : Option BVal
  year : Option BVal
deriving DecidableEq, Repr

/-- The BSON document for a `Book`, following the `bson` tags. -/
def bsonMarshal (b : Book) : BDoc :=
  { _id := if b.ID = "" then none else some (.str b.ID)
    title := if b.Title = "" then none else some (.str b.Title)
    author := if b.Author = "" then none else some (.str b.Author)
    year := if b.Year = 0 then none else some (.int b.Year) }

/-- Decoding a key into a `string` field. An absent key leaves the zero value;
a string is taken as it is, an ObjectId as its hex text, generic binary data
as the text of its bytes, null as the empty string; any other kind is an
error. -/
def decodeString : Option BVal → Except Err String
  | none => .ok ""
  | some (.str s) => .ok s
  | some (.oid n) => .ok (oidHex n)
  | some (.binary text) => .ok text
  | some .null => .ok ""
  | some (.int _) => .error .bsonDecode
  | some (.other _) => .error .bsonDecode

/-- Decoding a key into an `int` field. An absent key leaves the zero value;
an integer is taken as it is, null as zero; any other kind is an error. -/
def decodeInt : Option BVal → Except Err Int
  | none => .ok 0
  | some (.int n) => .ok n
  | some .null => .ok 0
  | some _ => .error .bsonDecode

/-- Decoding a stored document into a zero-valued `Book`. -/
def bsonDecode (d : Doc) : Except Err Book :=
  match decodeString (some d._id), decodeString d.title,
      decodeString d.author, decodeInt d.year with
  | .ok i, .ok t, .ok a, .ok y => .ok { ID := i, Title := t, Author := a, Year := y }
  | _, _, _, _ => .error .bsonDecode

/-- The collection `Golib.book`, in the order the store returns it. -/
abbrev Store := List Doc

/-- The fate of the store call a handler issues: it goes through, it returns an
error, or (for a query) it returns a cursor that breaks after delivering the
given number of documents. A call that returns no cursor is not affected by
`cursor`. -/
inductive Fault where
  | none
  | call
  | cursor (delivered : Nat)
deriving DecidableEq, Repr

/-- What the surroundings of one request supply. `now` is the reading of
`time.Now().UnixNano()`, `fault` the fate of the request's store call, `oid`
the ObjectId the driver generates for a document inserted without `_id`, and
`emptySetOk` whether the server accepts a `$set` with no keys. -/
structure Env where
  now : Int
  fault : Fault
  oid : Nat
  emptySetOk : Bool
deriving DecidableEq, Repr

/-- The filter `bson.M{"_id": bookID}`. -/
def matchesId (bookID : String) (d : Doc) : Bool :=
  decide (d._id = .str bookID)

/-- A cursor over query results: the documents it will still deliver and the
error `Err()` reports once `Next` has returned false. -/
structure Cursor where
  pending : List Doc
  err : Option Err
deriving DecidableEq, Repr

/-- The call `Find(ctx, bson.M{})`. -/
def find (env : Env) (s : Store) : Except Err Cursor :=
  match env.fault with
  | .call => .error .network
  | .cursor n => .ok { pending := s.take n, err := some .network }
  | .none => .ok { pending := s, err := none }

/-- The call `FindOne(ctx, bson.M{"_id": bookID}).Decode(&book)`. -/
def findOne (env : Env) (s : Store) (bookID : String) : Except Err Book :=
  if env.fault = .call then .error .network
  else
    match s.find? (matchesId bookID) with
    | none => .error .noDocuments
    | some d => bsonDecode d

/-- The call `InsertOne(ctx, book)` on the marshalled book. -/
def insertOne (env : Env) (s : Store) (b : BDoc) : Except Err Store :=
  if env.fault = .call then .error .network
  else
    let key := b._id.getD (.oid env.oid)
    if s.any (fun d => decide (d._id = key)) then .error .duplicateKey
    else .ok (s ++ [{ _id := key, title := b.title, author := b.author, year := b.year }])

/-- The effect of `$set` with operand `u` on one document. -/
def applySet (u : BDoc) (d : Doc) : Except Err Doc :=
  if u._id.isSome ∧ u._id ≠ some d._id then .error .immutableId
  else
    .ok { _id := d._id
          title := u.title.orElse (fun _ => d.title)
          author := u.author.orElse (fun _ => d.author)
          year := u.year.orElse (fun _ => d.year) }

/-- Applying `$set` to the first document the filter matches. -/
def updateFirst (bookID : String) (u : BDoc) : Store → Except Err Store
  | [] => .ok []
  | d :: rest =>
    if matchesId bookID d then
      match applySet u d with
      | .error e => .error e
      | .ok d' => .ok (d' :: rest)
    else
      match updateFirst bookID u rest with
      | .error e => .error e
      | .ok rest' => .ok (d :: rest')

/-- The call `UpdateOne(ctx, bson.M{"_id": bookID}, bson.D{{"$set", u}})`. -/
def updateOne (env : Env) (s : Store) (bookID : String) (u : BDoc) : Except Err Store :=
  if env.fault = .call then .error .network
  else if u = ⟨none, none, none, none⟩ ∧ env.emptySetOk = false then .error .emptySet
  else updateFirst bookID u s

/-- The call `DeleteOne(ctx, bson.M{"_id": bookID})`. -/
def deleteOne (env : Env) (s : Store) (bookID : String) : Except Err Store :=
  if env.fault = .call then .error .network
  else .ok (s.eraseP (matchesId bookID))

/-- The call `fmt.Sprintf("%d", n)`. -/
def sprintfD (n : Int) : String :=
  match n with
  | .ofNat m => Nat.repr m
  | .negSucc m => "-" ++ Nat.repr (m + 1)

/-! ## Handlers -/

/-- A store call issued by a handler. -/
inductive StoreCall where
  | find
  | findOne (bookID : String)
  | insertOne (b : BDoc)
  | updateOne (bookID : String) (u : BDoc)
  | deleteOne (bookID : String)
deriving DecidableEq, Repr

/-- A response body: what `json.Encoder.Encode` wrote, or the message
`http.Error` wrote. -/
inductive Body where
  | json (j : JSON)
  | text (e : Err)
deriving DecidableEq, Repr

/-- An HTTP response. -/
structure Response where
  status : Nat
  body : Body
deriving DecidableEq, Repr

/-- What running a handler leaves behind. -/
structure Outcome where
  resp : Response
  store : Store
  calls : List StoreCall
deriving DecidableEq, Repr

/-- The loop `for cur.Next(ctx) { ... }` of `getBooks`: it ends when the cursor
delivers nothing more, and stops early when a document does not decode. -/
def getBooksLoop : List Doc → Slice Book → Except Err (Slice Book)
  | [], books => .ok books
  | d :: rest, books =>
    match bsonDecode d with
    | .error e => .error e
    | .ok book => getBooksLoop rest (books.append book)

/-- Handler `getBooks`. -/
def getBooks (env : Env) (s : Store) : Outcome :=
  match find env s with
  | .error e => ⟨⟨500, .text e⟩, s, [.find]⟩
  | .ok cur =>
    match getBooksLoop cur.pending none with
    | .error e => ⟨⟨500, .text e⟩, s, [.find]⟩
    | .ok books => ⟨⟨200, .json (encodeBooks books)⟩, s, [.find]⟩

/-- Handler `getBook`. -/
def getBook (env : Env) (s : Store) (bookID : String) : Outcome :=
  match findOne env s bookID with
  | .error e => ⟨⟨404, .text e⟩, s, [.findOne bookID]⟩
  | .ok book => ⟨⟨200, .json (.obj (encodeBook book))⟩, s, [.findOne bookID]⟩

/-- Handler `createBook`. -/
def createBook (env : Env) (s : Store) (body : ReqBody) : Outcome :=
  match jsonDecode body with
  | .error e => ⟨⟨400, .text e⟩, s, []⟩
  | .ok decoded =>
    let book := { decoded with ID := sprintfD env.now }
    match insertOne env s (bsonMarshal book) with
    | .error e => ⟨⟨500, .text e⟩, s, [.insertOne (bsonMarshal book)]⟩
    | .ok s' => ⟨⟨200, .json (.obj (encodeBook book))⟩, s', [.insertOne (bsonMarshal book)]⟩

/-- Handler `updateBook`. -/
def updateBook (env : Env) (s : Store) (bookID : String) (body : ReqBody) : Outcome :=
  match jsonDecode body with
  | .error e => ⟨⟨400, .text e⟩, s, []⟩
  | .ok updatedBook =>
    match updateOne env s bookID (bsonMarshal updatedBook) with
    | .error e => ⟨⟨404, .text e⟩, s, [.updateOne bookID (bsonMarshal updatedBook)]⟩
    | .ok s' =>
      ⟨⟨200, .json (.obj (encodeBook updatedBook))⟩, s',
        [.updateOne bookID (bsonMarshal updatedBook)]⟩

/-- Handler `deleteBook`. -/
def deleteBook (env : Env) (s : Store) (bookID : String) : Outcome :=
  match deleteOne env s bookID with
  | .error e => ⟨⟨404, .text e⟩, s, [.deleteOne bookID]⟩
  | .ok s' =>
    ⟨⟨200, .json (.obj [("message", .str "Book deleted successfully")])⟩, s',
      [.deleteOne bookID]⟩

/-- The `_id` index: no two stored documents share a key. -/
def UniqueIds (s : Store) : Prop :=
  (s.map (fun d => d._id)).Nodup

instance (s : Store) : Decidable (UniqueIds s) := by
  unfold UniqueIds; infer_instance

/-! ## Sample requests and documents -/

/-- A request environment with a working store. -/
def sampleEnv : Env := { now := 1700000000000000000, fault := .none, oid := 0, emptySetOk := true }

/-- The request body of the Dune example: title, author and year, no id. -/
def duneBody : BookJSON := { id := none, title := some "Dune", author := some "Herbert", year := some 1965 }

/-- A stored book with key `"1"`. -/
def duneDoc : Doc :=
  { _id := .str "1", title := some (.str "Dune"), author := some (.str "Herbert"),
    year := some (.int 1965) }

/-- A stored book with key `"2"`. -/
def emmaDoc : Doc :=
  { _id := .str "2", title := some (.str "Emma"), author := some (.str "Austen"),
    year := some (.int 1815) }

/-- What `createBook` inserts for `duneBody` under `sampleEnv`. -/
def duneInsert : BDoc :=
  { _id := some (.str "1700000000000000000"), title := some (.str "Dune"),
    author := some (.str "Herbert"), year := some (.int 1965) }

/-- The document the store holds after that insert. -/
def duneCreated : Doc :=
  { _id := .str "1700000000000000000", title := some (.str "Dune"),
    author := some (.str "Herbert"), year := some (.int 1965) }

/-- A document keyed by an ObjectId, as another client of the collection
leaves it. -/
def oidDoc : Doc :=
  { _id := .oid 0x65a1b2c3d4e5f60718293a4b, title := some (.str "Emma"),
    author := some (.str "Austen"), year := some (.int 1815) }

/-- A document keyed by the string that spells the hex text of that
ObjectId. -/
def hexDoc : Doc :=
  { _id := .str "65a1b2c3d4e5f60718293a4b", title := some (.str "Dune"),
    author := some (.str "Herbert"), year := some (.int 1965) }


/-! ## Generated ids -/

/-- Digits are only ever pushed onto the accumulator. -/
theorem toDigitsCore_ne_nil (b : Nat) : ∀ (fuel n : Nat) (ds : List Char),
    ds ≠ [] → Nat.toDigitsCore b fuel n ds ≠ [] := by
  intro fuel
  induction fuel with
  | zero => intro n ds h; simpa [Nat.toDigitsCore] using h
  | succ f ih =>
    intro n ds _
    simp only [Nat.toDigitsCore]
    split
    · simp
    · exact ih _ _ (by simp)

/-- The decimal text of a natural number has at least one digit. -/
theorem repr_ne_empty (m : Nat) : Nat.repr m ≠ "" := by
  intro h
  have h1 : Nat.toDigits 10 m ≠ [] := by
    simp only [Nat.toDigits, Nat.toDigitsCore]
    split
    · simp
    · exact toDigitsCore_ne_nil _ _ _ _ (by simp)
  apply h1
  have := congrArg String.data h
  simpa [Nat.repr, List.asString] using this

/-- The id `createBook` generates is never the empty string. -/
theorem sprintfD_ne_empty (n : Int) : sprintfD n ≠ "" := by
  cases n with
  | ofNat m => exact repr_ne_empty m
  | negSucc m =>
    intro h
    have := congrArg String.length h
    simp only [sprintfD, String.length_append] at this
    have h2 : "-".length = 1 := by decide
    have h3 : "".length = 0 := by decide
    omega

/-! ## Marshalling and decoding -/

/-- A document that decodes has a key that reads as the decoded id. -/
theorem bsonDecode_id (d : Doc) (r : Book) (h : bsonDecode d = .ok r) :
    decodeString (some d._id) = .ok r.ID := by
  unfold bsonDecode at h
  split at h
  · rename_i i t a y h1 _ _ _
    cases h
    exact h1
  · cases h

/-- The record encoding determines the record. -/
theorem encodeBook_injective : Function.Injective encodeBook := by
  rintro ⟨i, t, a, y⟩ ⟨i', t', a', y'⟩ h
  simp only [encodeBook, omitEmptyStr, omitEmptyInt] at h
  by_cases hi : i = "" <;> by_cases ht : t = "" <;> by_cases ha : a = "" <;>
    by_cases hy : y = 0 <;> by_cases hi' : i' = "" <;> by_cases ht' : t' = "" <;>
    by_cases ha' : a' = "" <;> by_cases hy' : y' = 0 <;>
    simp_all

/-- The list encoding determines the slice, nil or not. -/
theorem encodeBooks_injective : Function.Injective encodeBooks := by
  intro a b h
  cases a with
  | none => cases b with
    | none => rfl
    | some l => simp [encodeBooks] at h
  | some l => cases b with
    | none => simp [encodeBooks] at h
    | some l' =>
      simp only [encodeBooks, JSON.arr.injEq] at h
      exact congrArg some (List.map_injective_iff.mpr encodeBook_injective h)

/-! ## Store calls -/

/-- What a successful insert says about the call and the store. -/
theorem insertOne_ok (env : Env) (s s' : Store) (b : BDoc) (h : insertOne env s b = .ok s') :
    env.fault ≠ .call ∧ (∀ d ∈ s, d._id ≠ b._id.getD (.oid env.oid)) ∧
      s' = s ++ [{ _id := b._id.getD (.oid env.oid), title := b.title,
                   author := b.author, year := b.year }] := by
  unfold insertOne at h
  split at h
  · cases h
  · rename_i hf
    simp only at h
    split at h
    · cases h
    · rename_i hany
      refine ⟨hf, ?_, ?_⟩
      · intro d hd heq
        apply hany
        simp only [List.any_eq_true, decide_eq_true_eq]
        exact ⟨d, hd, heq⟩
      · cases h; rfl

/-- An update keeps every key in place and touches only documents the filter
matches. -/
theorem updateFirst_forall₂ (i : String) (u : BDoc) : ∀ (s s' : Store),
    updateFirst i u s = .ok s' →
    List.Forall₂ (fun d d' => d'._id = d._id ∧ (d._id ≠ .str i → d' = d)) s s' := by
  intro s
  induction s with
  | nil => intro s' h; simp [updateFirst] at h; subst h; exact List.Forall₂.nil
  | cons d rest ih =>
    intro s' h
    simp only [updateFirst] at h
    split at h
    · rename_i hm
      split at h
      · cases h
      · rename_i d' hd'
        cases h
        refine List.Forall₂.cons ⟨?_, ?_⟩ ?_
        · unfold applySet at hd'
          split at hd'
          · cases hd'
          · cases hd'; rfl
        · intro hne
          simp [matchesId] at hm
          exact absurd hm hne
        · exact List.forall₂_same.mpr (fun x _ => ⟨rfl, fun _ => rfl⟩)
    · split at h
      · cases h
      · rename_i rest' hr
        cases h
        exact List.Forall₂.cons ⟨rfl, fun _ => rfl⟩ (ih _ hr)

/-- The same for the `UpdateOne` call. -/
theorem updateOne_forall₂ (env : Env) (i : String) (u : BDoc) (s s' : Store)
    (h : updateOne env s i u = .ok s') :
    List.Forall₂ (fun d d' => d'._id = d._id ∧ (d._id ≠ .str i → d' = d)) s s' := by
  unfold updateOne at h
  split at h
  · cases h
  · split at h
    · cases h
    · exact updateFirst_forall₂ i u s s' h

/-- The same for the handler, whatever its response. -/
theorem updateBook_forall₂ (env : Env) (s : Store) (bookID : String) (body : ReqBody) :
    List.Forall₂ (fun d d' => d'._id = d._id ∧ (d._id ≠ .str bookID → d' = d))
      s (updateBook env s bookID body).store := by
  unfold updateBook
  split
  · exact List.forall₂_same.mpr (fun x _ => ⟨rfl, fun _ => rfl⟩)
  · split
    · exact List.forall₂_same.mpr (fun x _ => ⟨rfl, fun _ => rfl⟩)
    · rename_i s' hs'
      exact updateOne_forall₂ env bookID _ s s' hs'

/-- Stores related key by key list the same keys. -/
theorem ids_eq_of_forall₂ (i : String) (s t : Store)
    (h : List.Forall₂ (fun d d' => d'._id = d._id ∧ (d._id ≠ BVal.str i → d' = d)) s t) :
    t.map (fun d => d._id) = s.map (fun d => d._id) := by
  induction h with
  | nil => rfl
  | cons h _ ih => simp [h.1, ih]

/-- With unique keys, nothing the filter matches is left after a delete. -/
theorem eraseP_no_match (i : String) : ∀ (s : Store), UniqueIds s →
    ∀ d ∈ s.eraseP (matchesId i), d._id ≠ .str i := by
  intro s
  induction s with
  | nil => intro _ d hd; simp at hd
  | cons x xs ih =>
    intro hu d hd
    have hu' : x._id ∉ xs.map (fun d => d._id) ∧ UniqueIds xs := by
      simpa [UniqueIds] using hu
    by_cases hx : matchesId i x = true
    · rw [List.eraseP_cons_of_pos hx] at hd
      have hxi : x._id = .str i := by simpa [matchesId] using hx
      intro hdi
      apply hu'.1
      rw [hxi, ← hdi]
      exact List.mem_map_of_mem _ hd
    · rw [List.eraseP_cons_of_neg hx] at hd
      rcases List.mem_cons.mp hd with h1 | h1
      · subst h1
        simpa [matchesId] using hx
      · exact ih hu'.2 d h1

/-- A cursor delivers stored documents only. -/
theorem find_pending_subset (env : Env) (s : Store) (cur : Cursor) (h : find env s = .ok cur) :
    ∀ d ∈ cur.pending, d ∈ s := by
  unfold find at h
  split at h
  · cases h
  · cases h; intro d hd; exact List.mem_of_mem_take hd
  · cases h; intro d hd; exact hd

/-! ## Handlers -/

/-- Every book the list loop returns was accumulated before or is decoded from
a delivered document. -/
theorem getBooksLoop_mem : ∀ (docs : List Doc) (acc bs : Slice Book),
    getBooksLoop docs acc = .ok bs →
    ∀ b ∈ bs.elems, b ∈ acc.elems ∨ ∃ d ∈ docs, bsonDecode d = .ok b := by
  intro docs
  induction docs with
  | nil =>
    intro acc bs h b hb
    simp only [getBooksLoop, Except.ok.injEq] at h
    subst h
    exact Or.inl hb
  | cons d rest ih =>
    intro acc bs h b hb
    simp only [getBooksLoop] at h
    split at h
    · cases h
    · rename_i book hbook
      rcases ih _ _ h b hb with hacc | ⟨d', hd', hdec⟩
      · have : b ∈ acc.elems ∨ b = book := by
          cases acc with
          | none => simpa [Slice.append, Slice.elems] using hacc
          | some l => simpa [Slice.append, Slice.elems] using hacc
        rcases this with h1 | h1
        · exact Or.inl h1
        · exact Or.inr ⟨d, by simp, by rw [h1]; exact hbook⟩
      · exact Or.inr ⟨d', by simp [hd'], hdec⟩

/-- A failed query and an undecodable document both end `getBooks` with status
500 and an error message in place of any record. -/
theorem getBooks_error_paths (env : Env) (s : Store) (e : Err) :
    (find env s = .error e → (getBooks env s).resp = ⟨500, .text e⟩) ∧
    (∀ cur, find env s = .ok cur → getBooksLoop cur.pending none = .error e →
      (getBooks env s).resp = ⟨500, .text e⟩) := by
  constructor
  · intro h; simp [getBooks, h]
  · intro cur h1 h2; simp [getBooks, h1, h2]

/-- A delete answered with 200 left the store with the first match erased. -/
theorem deleteBook_store (env : Env) (s : Store) (i : String)
    (hok : (deleteBook env s i).resp.status = 200) :
    (deleteBook env s i).store = s.eraseP (matchesId i) := by
  by_cases hf : env.fault = .call
  · simp [deleteBook, deleteOne, hf] at hok
  · simp [deleteBook, deleteOne, hf]

/-- The `_id` index survives every mutating handler. -/
theorem uniqueIds_preserved (env : Env) (s : Store) (bookID : String) (body : ReqBody)
    (h : UniqueIds s) :
    UniqueIds (createBook env s body).store ∧ UniqueIds (updateBook env s bookID body).store ∧
      UniqueIds (deleteBook env s bookID).store := by
  refine ⟨?_, ?_, ?_⟩
  · unfold createBook
    split
    · exact h
    · simp only
      split
      · exact h
      · rename_i s' hs'
        obtain ⟨_, hfresh, hs⟩ := insertOne_ok env s s' _ hs'
        subst hs
        unfold UniqueIds at h ⊢
        rw [List.map_append, List.nodup_append]
        refine ⟨h, by simp, ?_⟩
        intro k hk hk'
        simp only [List.map_cons, List.map_nil, List.mem_singleton] at hk'
        obtain ⟨d, hd, hdk⟩ := List.mem_map.mp hk
        exact hfresh d hd (hdk.trans hk')
  · unfold UniqueIds
    rw [ids_eq_of_forall₂ bookID s _ (updateBook_forall₂ env s bookID body)]
    exact h
  · unfold deleteBook deleteOne
    split
    · rename_i hh; split at hh
      · exact h
      · cases hh
    · rename_i s' hh; split at hh
      · cases hh
      · cases hh
        exact List.Nodup.sublist ((List.eraseP_sublist s).map _) h

/-! ## The claims -/

/-- Counterexample to C2 as stated: a body made of a JSON object and the bytes
` trailing` behind it is not a valid JSON text, yet `Decode` stops behind the
object and reports no error. `createBook` answers 200 and inserts the book,
`updateBook` answers 200 and rewrites the stored year. -/
theorem trailing_bytes_accepted :
    (ReqBody.objectThen duneBody " trailing").isJSON = false ∧
    createBook sampleEnv [] (.objectThen duneBody " trailing") =
      ⟨⟨200, .json (.obj [("id", .str "1700000000000000000"), ("title", .str "Dune"),
          ("author", .str "Herbert"), ("year", .num 1965)])⟩,
        [duneCreated], [.insertOne duneInsert]⟩ ∧
    updateBook sampleEnv [duneDoc] "1" (.objectThen ⟨none, none, none, some 1966⟩ " trailing") =
      ⟨⟨200, .json (.obj [("year", .num 1966)])⟩,
        [⟨.str "1", some (.str "Dune"), some (.str "Herbert"), some (.int 1966)⟩],
        [.updateOne "1" ⟨none, none, none, some (.int 1966)⟩]⟩ := by
  decide

/-- Claim C2 as amended, rejection of undecodable input. For every store, every
path id and every body on which `Decode` reports an error, because the body
does not begin with a complete JSON value or because that value does not fit
`Book`, `createBook` and `updateBook` both answer 400 with the decoder's
error, issue no store call and leave the store as it was. -/
theorem malformed_body_rejected (env : Env) (s : Store) (bookID : String) (body : ReqBody)
    (e : Err) (hbad : jsonDecode body = .error e) :
    createBook env s body = ⟨⟨400, .text e⟩, s, []⟩ ∧
    updateBook env s bookID body = ⟨⟨400, .text e⟩, s, []⟩ := by
  simp [createBook, updateBook, hbad]

/-- Witness for C2: a rejected body against a store holding one book. -/
theorem malformed_body_rejected_witness :
    jsonDecode .malformed = .error .jsonSyntax ∧
    createBook sampleEnv [duneDoc] .malformed = ⟨⟨400, .text .jsonSyntax⟩, [duneDoc], []⟩ ∧
    updateBook sampleEnv [duneDoc] "1" .malformed = ⟨⟨400, .text .jsonSyntax⟩, [duneDoc], []⟩ :=
  ⟨rfl, malformed_body_rejected sampleEnv [duneDoc] "1" .malformed .jsonSyntax rfl⟩

/-- Counterexample to C4 as stated: the store holds a document keyed by an
ObjectId and a document keyed by the string that spells its hex text. The
delete by that string answers 200 and removes the second document; the list
that follows answers 200 and still holds a record with that id, read from the
first document. -/
theorem delete_leaves_objectid_record :
    UniqueIds [oidDoc, hexDoc] ∧
    deleteBook sampleEnv [oidDoc, hexDoc] "65a1b2c3d4e5f60718293a4b" =
      ⟨⟨200, .json (.obj [("message", .str "Book deleted successfully")])⟩, [oidDoc],
        [.deleteOne "65a1b2c3d4e5f60718293a4b"]⟩ ∧
    (getBooks sampleEnv
        (deleteBook sampleEnv [oidDoc, hexDoc] "65a1b2c3d4e5f60718293a4b").store).resp =
      ⟨200, .json (encodeBooks
        (some [⟨"65a1b2c3d4e5f60718293a4b", "Emma", "Austen", 1815⟩]))⟩ := by
  decide

/-- Claim C4 as amended, delete finality. For every store with unique keys and
every id `i` such that no stored document with a key other than the string
`i` reads as id `i`: after `deleteBook` on `i` answers 200, a `getBook` for
`i` answers 404, and whenever `getBooks` answers with the encoding of a
sequence of records, no record of that sequence has id `i`. -/
theorem delete_finality (env env2 env3 : Env) (s : Store) (i : String)
    (huniq : UniqueIds s)
    (hkeys : ∀ d ∈ s, decodeString (some d._id) = .ok i → d._id = .str i)
    (hok : (deleteBook env s i).resp.status = 200) :
    (getBook env2 (deleteBook env s i).store i).resp.status = 404 ∧
    ∀ books : Slice Book,
      (getBooks env3 (deleteBook env s i).store).resp.body = .json (encodeBooks books) →
      ∀ b ∈ books.elems, b.ID ≠ i := by
  rw [deleteBook_store env s i hok]
  have hno := eraseP_no_match i s huniq
  constructor
  · have hfind : (s.eraseP (matchesId i)).find? (matchesId i) = none := by
      rw [List.find?_eq_none]
      intro d hd
      simpa [matchesId] using hno d hd
    unfold getBook findOne
    split
    · rfl
    · rename_i book hbook
      split at hbook
      · cases hbook
      · rw [hfind] at hbook
        cases hbook
  · intro books hbody b hb hbi
    unfold getBooks at hbody
    split at hbody
    · cases hbody
    · rename_i cur hcur
      split at hbody
      · cases hbody
      · rename_i bs hbs
        simp only [Body.json.injEq] at hbody
        have := encodeBooks_injective hbody
        subst this
        rcases getBooksLoop_mem _ _ _ hbs b hb with h1 | ⟨d, hd, hdec⟩
        · simp [Slice.elems] at h1
        · have hds := find_pending_subset env3 _ cur hcur d hd
          apply hno d hds
          apply hkeys d (List.mem_of_mem_eraseP hds)
          rw [bsonDecode_id d b hdec, hbi]

/-- Witness for C4: deleting the first of two stored books. -/
theorem delete_finality_witness :
    UniqueIds [duneDoc, emmaDoc] ∧
    (∀ d ∈ [duneDoc, emmaDoc], decodeString (some d._id) = .ok "1" → d._id = .str "1") ∧
    (deleteBook sampleEnv [duneDoc, emmaDoc] "1").resp.status = 200 ∧
    (getBook sampleEnv (deleteBook sampleEnv [duneDoc, emmaDoc] "1").store "1").resp.status = 404 ∧
    ∀ books : Slice Book,
      (getBooks sampleEnv (deleteBook sampleEnv [duneDoc, emmaDoc] "1").store).resp.body =
        .json (encodeBooks books) →
      ∀ b ∈ books.elems, b.ID ≠ "1" :=
  ⟨by decide, by simp [duneDoc, emmaDoc, decodeString], by decide,
    delete_finality sampleEnv sampleEnv sampleEnv [duneDoc, emmaDoc] "1" (by decide)
      (by simp [duneDoc, emmaDoc, decodeString]) (by decide)⟩

/-- Claim C5 at a failing input: the store holds one book with key 1 and the path
id is 7, which matches nothing. With a working store `updateBook` answers 200
echoing the body and `deleteBook` answers 200 with its confirmation; the store
is unchanged. -/
theorem unmatched_id_reports_success :
    [duneDoc].find? (matchesId "7") = none ∧
    updateBook sampleEnv [duneDoc] "7" (.object ⟨none, none, none, some 1966⟩) =
      ⟨⟨200, .json (.obj [("year", .num 1966)])⟩, [duneDoc],
        [.updateOne "7" ⟨none, none, none, some (.int 1966)⟩]⟩ ∧
    deleteBook sampleEnv [duneDoc] "7" =
      ⟨⟨200, .json (.obj [("message", .str "Book deleted successfully")])⟩, [duneDoc],
        [.deleteOne "7"]⟩ := by
  decide

/-- Claim C6 at a failing input: two stored books and a cursor that breaks after
delivering the first. The cursor holds the error, `getBooks` never asks for
it and answers 200 with the one record decoded so far. -/
theorem getBooks_broken_cursor_partial :
    find ⟨0, .cursor 1, 0, true⟩ [duneDoc, emmaDoc] = .ok ⟨[duneDoc], some .network⟩ ∧
    (getBooks ⟨0, .cursor 1, 0, true⟩ [duneDoc, emmaDoc]).resp =
      ⟨200, .json (.arr [[("id", .str "1"), ("title", .str "Dune"), ("author", .str "Herbert"),
        ("year", .num 1965)]])⟩ :=
  ⟨rfl, by decide⟩

/-- Claim C7 at the failing input: on an empty store with a working query
`getBooks` answers 200 and the body is JSON `null`, which is not the empty
array. -/
theorem getBooks_empty_store_null (now : Int) (oid : Nat) (emptySetOk : Bool) :
    getBooks ⟨now, .none, oid, emptySetOk⟩ [] = ⟨⟨200, .json .null⟩, [], [.find]⟩ ∧
    (getBooks ⟨now, .none, oid, emptySetOk⟩ []).resp.body ≠ .json (.arr []) := by
  constructor
  · rfl
  · simp [getBooks, find, getBooksLoop, encodeBooks]

/-- Claim C9, update preserves existence and ids. For every store, path id and
body, whatever `updateBook` answers: the store afterwards lists the same keys
in the same order, and document by document the key is unchanged and a
document whose key is not the path id is unchanged altogether. -/
theorem updateBook_preserves_ids (env : Env) (s : Store) (bookID : String) (body : ReqBody) :
    (updateBook env s bookID body).store.map (fun d => d._id) = s.map (fun d => d._id) ∧
    List.Forall₂ (fun d d' => d'._id = d._id ∧ (d._id ≠ .str bookID → d' = d))
      s (updateBook env s bookID body).store :=
  ⟨ids_eq_of_forall₂ bookID s _ (updateBook_forall₂ env s bookID body),
    updateBook_forall₂ env s bookID body⟩

/-- Claim C10 at a failing input: two `createBook` calls that read the same clock
value, against an empty store. Both insert under the same key, the decimal
text of the reading; the first answers 200, the second is refused as a
duplicate and answers 500, and one document is stored. -/
theorem createBook_same_clock_collides (t : Int) (o1 o2 : BookJSON) (oid : Nat) (e : Bool) :
    createBook ⟨t, .none, oid, e⟩ [] (.object o1) =
      ⟨⟨200, .json (.obj (encodeBook ⟨sprintfD t, o1.title.getD "", o1.author.getD "",
          o1.year.getD 0⟩))⟩,
        [⟨.str (sprintfD t), (bsonMarshal ⟨sprintfD t, o1.title.getD "", o1.author.getD "",
          o1.year.getD 0⟩).title, (bsonMarshal ⟨sprintfD t, o1.title.getD "", o1.author.getD "",
          o1.year.getD 0⟩).author, (bsonMarshal ⟨sprintfD t, o1.title.getD "", o1.author.getD "",
          o1.year.getD 0⟩).year⟩],
        [.insertOne (bsonMarshal ⟨sprintfD t, o1.title.getD "", o1.author.getD "",
          o1.year.getD 0⟩)]⟩ ∧
    createBook ⟨t, .none, oid, e⟩ (createBook ⟨t, .none, oid, e⟩ [] (.object o1)).store
        (.object o2) =
      ⟨⟨500, .text .duplicateKey⟩, (createBook ⟨t, .none, oid, e⟩ [] (.object o1)).store,
        [.insertOne (bsonMarshal ⟨sprintfD t, o2.title.getD "", o2.author.getD "",
          o2.year.getD 0⟩)]⟩ ∧
    (bsonMarshal ⟨sprintfD t, o1.title.getD "", o1.author.getD "", o1.year.getD 0⟩)._id =
      (bsonMarshal ⟨sprintfD t, o2.title.getD "", o2.author.getD "", o2.year.getD 0⟩)._id := by
  have hne := sprintfD_ne_empty t
  simp [createBook, jsonDecode, insertOne, bsonMarshal, hne]

end GoCRUD
